import Mathlib

/-!
Verification of the media-analysis pipeline of the Hackhazards-25 repository.

The development shallowly embeds the JavaScript source:

* `extractKeyFramesPlan` — the frame-sampling arithmetic of `extractKeyFrames`
  (videoProcessor): durations and intervals are exact rationals, `Math.floor`
  is `Int.floor`, the `for`-loop with `break` is `List.takeWhile`.
* `summarizeVideoContent` / `summarizeAudioContent` (groqProcessor): external
  model calls are an environment of `Except`-valued oracles; the embedding also
  returns the list of calls issued, so "no vision call happens" is a statement
  about the returned trace.
* `summarizeRoute` — the `/summarize` handler (server), from classification of
  the mime type down to the summarizer result.
* `cleanupFiles` (cleanup): the filesystem is the list of existing paths,
  `fs.unlink` fails on a missing path, and the per-path `.catch` swallows the
  failure.

JavaScript strings are modelled as `List Char`, so `String.prototype.startsWith`
becomes `List.isPrefixOf` and `trim` a two-sided `dropWhile` of whitespace.
-/

deriving instance DecidableEq for Except

namespace Hackhazards

/-- JavaScript strings, modelled as lists of characters. -/
abbrev Str := List Char

/-- Character data of a Lean string literal. -/
def str (s : String) : Str := s.data

/-- `String.prototype.trim`: strip whitespace from both ends. -/
def jsTrim (s : Str) : Str :=
  ((s.dropWhile Char.isWhitespace).reverse.dropWhile Char.isWhitespace).reverse

/-! ## Frame Sampling Planner (`extractKeyFrames`, videoProcessor.js) -/

/-- Rejection message when ffprobe reports no usable duration. -/
def durationErrorMsg : Str :=
  str "Could not determine video duration or duration is zero."

/-- `calculatedFrameCount`: `Math.floor(duration / secondsPerFrame)`, bumped to
`1` when non-positive but the duration exceeds `0.1`, else clamped to `0`. -/
def calculatedFrameCount (duration secondsPerFrame : ℚ) : ℤ :=
  let c : ℤ := ⌊duration / secondsPerFrame⌋
  if c ≤ 0 then (if duration > 1/10 then 1 else 0) else c

/-- `actualFrameCount`: the calculated count capped by `maxFrames`. -/
def actualFrameCount (duration secondsPerFrame : ℚ) (maxFrames : ℤ) : ℤ :=
  min (calculatedFrameCount duration secondsPerFrame) maxFrames

/-- The `timemarks` loop: candidates `i * secondsPerFrame` for
`i = 1 .. actualFrameCount`, stopping (`break`) at the first candidate above
`duration + 0.5`, each retained candidate clamped to `duration`. -/
def candidateTimemarks (duration secondsPerFrame : ℚ) (maxFrames : ℤ) : List ℚ :=
  (((List.range (actualFrameCount duration secondsPerFrame maxFrames).toNat).map
      (fun i : ℕ => ((i : ℚ) + 1) * secondsPerFrame)).takeWhile
      (fun t => decide (t ≤ duration + 1/2))).map (fun t => min t duration)

/-- The sampling decision of `extractKeyFrames`: reject when the probed
duration is unknown (`none`) or non-positive, resolve `[]` when the capped
count is non-positive, substitute the single midpoint when the retained list is
empty yet the duration exceeds `0.1`, otherwise resolve the retained list. -/
def extractKeyFramesPlan (duration : Option ℚ) (secondsPerFrame : ℚ)
    (maxFrames : ℤ) : Except Str (List ℚ) :=
  match duration with
  | none => .error durationErrorMsg
  | some d =>
    if d ≤ 0 then .error durationErrorMsg
    else if actualFrameCount d secondsPerFrame maxFrames ≤ 0 then .ok []
    else
      let timemarks := candidateTimemarks d secondsPerFrame maxFrames
      if timemarks = [] ∧ 1/10 < d then .ok [max (1/10) (d / 2)]
      else .ok timemarks

/-! ## Artifact cleanup (`cleanupFiles`, cleanup.js) -/

/-- `fs.unlink`: removes an existing path, rejects on a missing one. The
filesystem is the list of currently existing paths. -/
def unlinkFile (fs : List Str) (p : Str) : Except Str (List Str) :=
  if p ∈ fs then .ok (fs.erase p)
  else .error (str "ENOENT: no such file or directory, unlink " ++ p)

/-- One settled deletion attempt: a null path resolves immediately; otherwise
`fs.unlink` runs and its rejection is swallowed by the `.catch` handler. -/
def cleanupStep (acc : List Str) (fp : Option Str) : List Str :=
  match fp with
  | none => acc
  | some p =>
    match unlinkFile acc p with
    | .ok fs2 => fs2
    | .error _ => acc

/-- `cleanupFiles`: returns immediately on an empty path list; otherwise
attempts deletion of every non-null path, swallowing each per-path failure,
and settles all attempts (`Promise.allSettled`). -/
def cleanupFiles (filePaths : List (Option Str)) (fs : List Str) : List Str :=
  if filePaths.length = 0 then fs
  else filePaths.foldl cleanupStep fs

/-! ## Chunked Vision-Text Synthesis Engine (`groqProcessor.js`) -/

/-- Identifier of the text model used for synthesis and audio summaries. -/
def TEXT_MODEL : Str := str "llama-3.3-70b-versatile"

/-- Hard per-call image ceiling of the vision model. -/
def VISION_MODEL_IMAGE_LIMIT : Nat := 5

/-- `{ summary, modelUsed }`, the value resolved by the summarizers. -/
structure SynthesisResult where
  summary : Str
  modelUsed : Str
deriving DecidableEq, Repr

/-- An external Groq chat call, as recorded in the call trace: one vision call
per frame chunk (with its 1-based chunk index and its frames), or one text
call (with its user-message content). -/
inductive GroqCall where
  | vision (chunkIndex : Nat) (frames : List Str)
  | text (userContent : Str)
deriving DecidableEq, Repr

/-- Whether a recorded call went to the vision model. -/
def GroqCall.isVisionCall : GroqCall → Bool
  | .vision _ _ => true
  | .text _ => false

/-- Outcomes of the external Groq API: for each 0-based chunk index the vision
call's result, and for each user-message content the text call's result. An
`Except.error` is a thrown API error; an `Except.ok` carries the (untrimmed)
message content, the empty string standing for an absent/empty response. -/
structure GroqEnv where
  visionResponse : Nat → Except Str Str
  textResponse : Str → Except Str Str

/-- `{ chunk, frameRange, analysis }` as pushed onto `partialAnalyses`. -/
structure PartialAnalysis where
  chunk : Nat
  frameRange : Str
  analysis : Str
deriving DecidableEq, Repr

/-- Decimal digits of a chunk boundary, for the frame-range label. -/
def natStr (n : Nat) : Str := (toString n).data

/-- `frameNumbers`: the label `Frames <start+1>-<min end numFrames>`. -/
def frameRangeLabel (start stop numFrames : Nat) : Str :=
  str "Frames " ++ natStr (start + 1) ++ str "-" ++ natStr (min stop numFrames)

/-- Placeholder recorded when a vision call throws. -/
def errorAnalysisPlaceholder (msg : Str) : Str :=
  str "[Error during analysis: " ++ msg ++ str "]"

/-- Placeholder recorded when a vision call resolves with empty content. -/
def emptyAnalysisPlaceholder : Str := str "[Analysis for this segment was empty]"

/-- One iteration of the chunk loop: trim the response content, push the
trimmed analysis when non-empty, else the empty placeholder; on a thrown
error push the error placeholder. `i` is the 0-based loop index. -/
def analyzeChunkOutcome (env : GroqEnv) (i : Nat) (frameRange : Str) :
    PartialAnalysis :=
  match env.visionResponse i with
  | .ok content =>
    let analysisText := jsTrim content
    if analysisText ≠ [] then ⟨i + 1, frameRange, analysisText⟩
    else ⟨i + 1, frameRange, emptyAnalysisPlaceholder⟩
  | .error msg => ⟨i + 1, frameRange, errorAnalysisPlaceholder msg⟩

/-- `Math.ceil(numFrames / VISION_MODEL_IMAGE_LIMIT)`. -/
def numChunksFor (numFrames : Nat) : Nat :=
  (numFrames + VISION_MODEL_IMAGE_LIMIT - 1) / VISION_MODEL_IMAGE_LIMIT

/-- `base64Frames.slice(i*LIMIT, (i+1)*LIMIT)`. -/
def chunkOf (frames : List Str) (i : Nat) : List Str :=
  (frames.drop (i * VISION_MODEL_IMAGE_LIMIT)).take VISION_MODEL_IMAGE_LIMIT

/-- The `partialAnalyses` array after the sequential chunk loop (a chunk with
no frames is skipped by the `continue`). -/
def partialAnalysesFor (env : GroqEnv) (frames : List Str) :
    List PartialAnalysis :=
  (List.range (numChunksFor frames.length)).filterMap (fun i =>
    if (chunkOf frames i).length = 0 then none
    else some (analyzeChunkOutcome env i
      (frameRangeLabel (i * VISION_MODEL_IMAGE_LIMIT)
        (i * VISION_MODEL_IMAGE_LIMIT + VISION_MODEL_IMAGE_LIMIT)
        frames.length)))

/-- The vision calls issued by the chunk loop, in order. -/
def visionCallsFor (frames : List Str) : List GroqCall :=
  (List.range (numChunksFor frames.length)).filterMap (fun i =>
    if (chunkOf frames i).length = 0 then none
    else some (GroqCall.vision (i + 1) (chunkOf frames i)))

/-- The `successfulAnalyses` filter: drop every analysis that starts with
`"[Error"` or with the empty-segment placeholder. -/
def isSuccessfulAnalysis (pa : PartialAnalysis) : Bool :=
  !(str "[Error").isPrefixOf pa.analysis &&
    !(str "[Analysis for this segment was empty]").isPrefixOf pa.analysis

/-- `combinedAnalyses`: the successful analyses concatenated, each tagged with
its frame range. -/
def combinedAnalysesText (successful : List PartialAnalysis) : Str :=
  successful.foldl (fun acc pa =>
    acc ++ str "\nAnalysis of " ++ pa.frameRange ++ str ":\n" ++
      pa.analysis ++ str "\n---") []

/-- The user content of the final synthesis request. -/
def synthesisPromptText (transcript combined : Str) : Str :=
  str "Generate a comprehensive summary of the video based on the full audio transcript and the following sequential analyses of key visual frame segments.\n\nFull Audio Transcript:\n"
    ++ transcript ++ str "\n\nVisual Segment Analyses:" ++ combined
    ++ str "\n\nFinal Comprehensive Summary:"

/-- The user content of the transcript-only summary request. -/
def audioSummaryPrompt (transcript : Str) : Str :=
  str "Please provide a concise summary of the following transcript:\n\n"
    ++ transcript

/-- `summarizeAudioContent`: the transcript-only path. Resolves a placeholder
result on an empty or whitespace-only transcript, throws a wrapped API error
when the text call rejects, resolves a placeholder when the trimmed summary is
empty, else resolves the summary. Also returns the trace of Groq calls. -/
def summarizeAudioContent (transcript : Str) (env : GroqEnv) :
    Except Str SynthesisResult × List GroqCall :=
  if transcript = [] ∨ (jsTrim transcript).length = 0 then
    (.ok ⟨str "[No transcript provided or transcript was empty]", TEXT_MODEL⟩, [])
  else
    let p := audioSummaryPrompt transcript
    match env.textResponse p with
    | .error msg =>
      (.error (str "Groq API request failed (" ++ TEXT_MODEL ++
        str ") for text summary: " ++ msg), [GroqCall.text p])
    | .ok content =>
      let summary := jsTrim content
      if summary = [] then
        (.ok ⟨str "[Summary generation failed or returned empty]", TEXT_MODEL⟩,
         [GroqCall.text p])
      else (.ok ⟨summary, TEXT_MODEL⟩, [GroqCall.text p])

/-- `summarizeVideoContent`: throws without a transcript; falls back to the
transcript-only path when no frames exist; otherwise analyzes the frames in
chunks, filters to successful analyses, falls back to the transcript-only path
when none succeeded, and else issues the final synthesis call, throwing a
wrapped error when that call rejects or resolves empty. Also returns the trace
of Groq calls, vision calls first, in order. -/
def summarizeVideoContent (transcript : Str) (base64Frames : List Str)
    (env : GroqEnv) : Except Str SynthesisResult × List GroqCall :=
  if transcript = [] then
    (.error (str "Transcript is required for video summarization."), [])
  else if base64Frames.length = 0 then
    summarizeAudioContent transcript env
  else
    let analyses := partialAnalysesFor env base64Frames
    let calls := visionCallsFor base64Frames
    let successful := analyses.filter isSuccessfulAnalysis
    if successful.length = 0 then
      let fallback := summarizeAudioContent transcript env
      (fallback.1, calls ++ fallback.2)
    else
      let prompt := synthesisPromptText transcript (combinedAnalysesText successful)
      match env.textResponse prompt with
      | .error msg =>
        (.error (str "Final summary synthesis failed: " ++ msg),
         calls ++ [GroqCall.text prompt])
      | .ok content =>
        let finalSummary := jsTrim content
        if finalSummary = [] then
          (.error (str "Final summary synthesis failed: Final synthesis resulted in an empty summary."),
           calls ++ [GroqCall.text prompt])
        else (.ok ⟨finalSummary, TEXT_MODEL⟩, calls ++ [GroqCall.text prompt])

/-! ## Pipeline Orchestrator (the POST /summarize handler, server.js) -/

/-- The handler's outcome: a JSON success payload or a 500 error with its
`details` message. -/
inductive RouteResult where
  | ok (summary modelUsed : Str)
  | serverError (details : Str)
deriving DecidableEq, Repr

/-- Outcomes of the orchestrator's external collaborators for one request:
`extractAudio`, `extractKeyFrames`, `transcribeAudio` (keyed by audio path),
and the Groq oracles. -/
structure RouteEnv where
  extractAudioResult : Except Str Str
  extractFramesResult : Except Str (List Str)
  transcribeResult : Str → Except Str Str
  groq : GroqEnv

/-- The tail of the handler after extraction: transcribe the resolved audio
path, fail on an empty or whitespace-only transcript, then dispatch to the
vision summarizer (video with frames) or the text summarizer. -/
def transcribeAndSummarize (env : RouteEnv) (isVideo : Bool) (audioPath : Str)
    (base64Frames : List Str) : RouteResult × List GroqCall :=
  match env.transcribeResult audioPath with
  | .error msg => (.serverError msg, [])
  | .ok transcriptText =>
    if transcriptText = [] ∨ (jsTrim transcriptText).length = 0 then
      (.serverError (str "Transcription resulted in empty text."), [])
    else if isVideo = true ∧ 0 < base64Frames.length then
      match summarizeVideoContent transcriptText base64Frames env.groq with
      | (.ok r, calls) => (.ok r.summary r.modelUsed, calls)
      | (.error msg, calls) => (.serverError msg, calls)
    else
      match summarizeAudioContent transcriptText env.groq with
      | (.ok r, calls) => (.ok r.summary r.modelUsed, calls)
      | (.error msg, calls) => (.serverError msg, calls)

/-- The handler: classify by mime type. On video, a failed audio extraction is
fatal (`Critical video processing error`), while a failed frame extraction
only empties the frame set; on audio, the original upload is the audio path;
anything else is an unsupported type. Thrown messages surface as the 500
response's `details`. -/
def summarizeRoute (mimeType originalFilePath : Str) (env : RouteEnv) :
    RouteResult × List GroqCall :=
  if (str "video/").isPrefixOf mimeType then
    match env.extractAudioResult with
    | .error msg =>
      (.serverError (str "Critical video processing error: " ++ msg), [])
    | .ok tempAudioPath =>
      let base64Frames := match env.extractFramesResult with
        | .ok fs => fs
        | .error _ => ([] : List Str)
      transcribeAndSummarize env true tempAudioPath base64Frames
  else if (str "audio/").isPrefixOf mimeType then
    transcribeAndSummarize env false originalFilePath []
  else
    (.serverError (str "Unsupported file type: " ++ mimeType), [])

/-! ## Theorems -/

/-! ### Planner lemmas -/

/-- When the floor-based count is at least `1`, no `1`-bump applies. -/
lemma calculatedFrameCount_of_floor_pos (d s : ℚ) (hc : 1 ≤ ⌊d / s⌋) :
    calculatedFrameCount d s = ⌊d / s⌋ := by
  unfold calculatedFrameCount
  simp only []
  rw [if_neg (by omega)]

/-- Every candidate timestamp in range of the capped count stays below the
duration itself whenever the floor-based count is at least `1`. -/
lemma candidate_le_duration (d s : ℚ) (m : ℤ) (hs : 0 < s) (hc : 1 ≤ ⌊d / s⌋)
    (i : ℕ) (hi : i < (actualFrameCount d s m).toNat) :
    ((i : ℚ) + 1) * s ≤ d := by
  have h1 : (i : ℤ) + 1 ≤ actualFrameCount d s m := by omega
  have h2 : actualFrameCount d s m ≤ ⌊d / s⌋ := by
    rw [actualFrameCount, calculatedFrameCount_of_floor_pos d s hc]
    exact min_le_left _ _
  have h4 : (((i : ℤ) + 1 : ℤ) : ℚ) ≤ d / s := Int.le_floor.mp (h1.trans h2)
  have h5 : ((i : ℚ) + 1) ≤ d / s := by push_cast at h4; linarith
  calc ((i : ℚ) + 1) * s ≤ (d / s) * s := by
        exact mul_le_mul_of_nonneg_right h5 hs.le
    _ = d := div_mul_cancel₀ d hs.ne'

/-- The retained timemark list is either empty or has exactly the capped
count of entries: the discard rule never strictly shortens a non-empty list. -/
lemma candidateTimemarks_length_of_ne_nil (d s : ℚ) (m : ℤ)
    (hd : 0 < d) (hs : 0 < s) (hne : candidateTimemarks d s m ≠ []) :
    (candidateTimemarks d s m).length = (actualFrameCount d s m).toNat := by
  by_cases hc : 1 ≤ ⌊d / s⌋
  · unfold candidateTimemarks
    rw [List.takeWhile_eq_self_iff.mpr ?all]
    · simp
    case all =>
      intro x hx
      simp only [List.mem_map, List.mem_range] at hx
      obtain ⟨i, hi, rfl⟩ := hx
      have := candidate_le_duration d s m hs hc i hi
      simp only [decide_eq_true_eq]
      linarith
  · have hcalc : calculatedFrameCount d s ≤ 1 := by
      unfold calculatedFrameCount
      simp only []
      rw [if_pos (by omega)]
      split <;> omega
    have hact : actualFrameCount d s m ≤ 1 :=
      le_trans (min_le_left _ _) hcalc
    rcases Nat.lt_or_ge (actualFrameCount d s m).toNat 1 with h0 | h1
    · exfalso
      apply hne
      unfold candidateTimemarks
      rw [Nat.lt_one_iff.mp h0]
      simp
    · have hn1 : (actualFrameCount d s m).toNat = 1 := by omega
      have hr1 : List.range 1 = [0] := rfl
      unfold candidateTimemarks at hne ⊢
      rw [hn1, hr1] at hne ⊢
      simp only [List.map_cons, List.map_nil, List.takeWhile_cons] at hne ⊢
      by_cases hkeep : s ≤ d + 1/2
      · rw [if_pos (decide_eq_true (by push_cast; linarith))]
        simp
      · exfalso
        apply hne
        rw [if_neg (by simp only [decide_eq_true_eq]; push_cast; intro hx; exact hkeep (by linarith))]
        simp

/-- C1: For every positive duration and every sampling policy with positive
interval and positive integer frame cap, the plan computed by
`extractKeyFrames` (in every resolving branch, the single-midpoint fallback
included) contains at most `maxFrames` timestamps. -/
theorem extractKeyFrames_plan_le_maxFrames (d s : ℚ) (m : ℤ)
    (hd : 0 < d) (hs : 0 < s) (hm : 1 ≤ m) (l : List ℚ)
    (h : extractKeyFramesPlan (some d) s m = .ok l) :
    (l.length : ℤ) ≤ m := by
  simp only [extractKeyFramesPlan] at h
  rw [if_neg (not_le.mpr hd)] at h
  by_cases hac : actualFrameCount d s m ≤ 0
  · rw [if_pos hac] at h
    cases h
    simp only [List.length_nil, Nat.cast_zero]
    omega
  · rw [if_neg hac] at h
    by_cases hfb : candidateTimemarks d s m = [] ∧ 1/10 < d
    · rw [if_pos hfb] at h
      cases h
      simpa using hm
    · rw [if_neg hfb] at h
      cases h
      have hlen : (candidateTimemarks d s m).length ≤ (actualFrameCount d s m).toNat := by
        unfold candidateTimemarks
        rw [List.length_map]
        calc (List.takeWhile _ _).length
            ≤ ((List.range (actualFrameCount d s m).toNat).map
                (fun i : ℕ => ((i : ℚ) + 1) * s)).length :=
              (List.takeWhile_prefix _).length_le
          _ = (actualFrameCount d s m).toNat := by simp
      have hcast : ((actualFrameCount d s m).toNat : ℤ) = actualFrameCount d s m :=
        Int.toNat_of_nonneg (by omega)
      have : actualFrameCount d s m ≤ m := min_le_right _ _
      omega

/-- C1 witness: a 95-second video at one frame per 10 seconds capped at 30
frames yields the 9 timestamps 10..90, and 9 ≤ 30. -/
theorem extractKeyFrames_plan_le_maxFrames_witness :
    (([10, 20, 30, 40, 50, 60, 70, 80, 90] : List ℚ).length : ℤ) ≤ 30 := by
  refine extractKeyFrames_plan_le_maxFrames 95 10 30 (by norm_num) (by norm_num)
    (by norm_num) _ ?_
  have h0 : actualFrameCount 95 10 30 = 9 := by
    norm_num [actualFrameCount, calculatedFrameCount]
  have h : (actualFrameCount 95 10 30).toNat = 9 := by rw [h0]; rfl
  simp only [extractKeyFramesPlan]
  rw [if_neg (show ¬((95 : ℚ) ≤ 0) by norm_num)]
  rw [if_neg (show ¬(actualFrameCount 95 10 30 ≤ 0) by rw [h0]; norm_num)]
  have htm : candidateTimemarks 95 10 30 = [10, 20, 30, 40, 50, 60, 70, 80, 90] := by
    rw [candidateTimemarks, h]
    norm_num [List.range_succ, List.takeWhile_cons]
  rw [htm]
  rw [if_neg (by simp)]

/-- C5 counterexample: at duration `0` (and at unknown or negative durations)
the planner rejects with the duration error; it does not resolve the empty
plan, contrary to the claim. -/
theorem planner_zero_duration_rejects_cex :
    extractKeyFramesPlan (some 0) 10 30 = .error durationErrorMsg ∧
    extractKeyFramesPlan none 10 30 = .error durationErrorMsg ∧
    extractKeyFramesPlan (some (-3)) 10 30 = .error durationErrorMsg ∧
    extractKeyFramesPlan (some 0) 10 30 ≠ .ok [] := by
  refine ⟨?_, rfl, ?_, ?_⟩
  · simp only [extractKeyFramesPlan]
    rw [if_pos (le_refl (0 : ℚ))]
  · simp only [extractKeyFramesPlan]
    rw [if_pos (show (-3 : ℚ) ≤ 0 by norm_num)]
  · simp only [extractKeyFramesPlan]
    rw [if_pos (le_refl (0 : ℚ))]
    intro h
    cases h

/-- C5 amended: for every policy, the planner applied to an unknown, zero, or
negative duration rejects with the duration error (an `Error` outcome), rather
than returning the empty plan. -/
theorem planner_invalid_duration_errors (dOpt : Option ℚ) (s : ℚ) (m : ℤ)
    (h : dOpt = none ∨ ∃ d, dOpt = some d ∧ d ≤ 0) :
    extractKeyFramesPlan dOpt s m = .error durationErrorMsg := by
  rcases h with rfl | ⟨d, rfl, hd⟩
  · rfl
  · simp only [extractKeyFramesPlan]
    rw [if_pos hd]

/-- C5 amended witness: the zero-duration instance. -/
theorem planner_invalid_duration_errors_witness :
    extractKeyFramesPlan (some 0) 10 30 = .error durationErrorMsg :=
  planner_invalid_duration_errors (some 0) 10 30 (Or.inr ⟨0, rfl, le_refl 0⟩)

/-- C8 counterexample (the claim's negation): there is no positive duration and
policy for which the discard rule leaves a non-empty retained list strictly
shorter than the capped count `min(rawCount, maxFrames)`. -/
theorem discard_rule_shortfall_impossible :
    ¬ ∃ (d s : ℚ) (m : ℤ), 0 < d ∧ 0 < s ∧ 1 ≤ m ∧
      candidateTimemarks d s m ≠ [] ∧
      (candidateTimemarks d s m).length < (actualFrameCount d s m).toNat := by
  rintro ⟨d, s, m, hd, hs, _, hne, hlt⟩
  rw [candidateTimemarks_length_of_ne_nil d s m hd hs hne] at hlt
  exact lt_irrefl _ hlt

/-- C8 amended: for every positive duration and positive interval, the retained
timemark list is either completely empty (the case that re-triggers the
single-midpoint fallback when `duration > 0.1`) or contains exactly
`cappedCount` timestamps — the discard rule can never strictly shorten a
non-empty retained list. -/
theorem discard_rule_all_or_nothing (d s : ℚ) (m : ℤ)
    (hd : 0 < d) (hs : 0 < s) (hne : candidateTimemarks d s m ≠ []) :
    (candidateTimemarks d s m).length = (actualFrameCount d s m).toNat :=
  candidateTimemarks_length_of_ne_nil d s m hd hs hne

/-- C8 amended witness: at duration 95, interval 10, cap 30 the retained list
is the full capped count (9 timestamps). -/
theorem discard_rule_all_or_nothing_witness :
    (candidateTimemarks 95 10 30).length = (actualFrameCount 95 10 30).toNat := by
  apply discard_rule_all_or_nothing 95 10 30 (by norm_num) (by norm_num)
  have h0 : actualFrameCount 95 10 30 = 9 := by
    norm_num [actualFrameCount, calculatedFrameCount]
  have h : (actualFrameCount 95 10 30).toNat = 9 := by rw [h0]; rfl
  rw [candidateTimemarks, h]
  norm_num [List.range_succ, List.takeWhile_cons]
  simp

/-! ### Cleanup lemmas and theorems -/

/-- A deletion attempt on a duplicate-free filesystem filters out the path. -/
lemma cleanupStep_some_eq_filter (acc : List Str) (p : Str) (h : acc.Nodup) :
    cleanupStep acc (some p) = acc.filter (fun f => decide (f ≠ p)) := by
  simp only [cleanupStep, unlinkFile]
  by_cases hp : p ∈ acc
  · rw [if_pos hp]
    show acc.erase p = _
    rw [h.erase_eq_filter p]
    refine List.filter_congr ?_
    intro a _
    show (a != p) = decide (a ≠ p)
    by_cases hap : a = p <;> simp [hap]
  · rw [if_neg hp]
    refine (List.filter_eq_self.mpr ?_).symm
    intro a ha
    simp only [decide_eq_true_eq]
    rintro rfl
    exact hp ha

/-- The settled fold over all paths removes exactly the listed paths. -/
lemma cleanup_foldl_eq_filter (paths : List (Option Str)) (fs : List Str)
    (h : fs.Nodup) :
    paths.foldl cleanupStep fs = fs.filter (fun f => decide (some f ∉ paths)) := by
  induction paths generalizing fs with
  | nil =>
    simp
  | cons fp rest ih =>
    rw [List.foldl_cons]
    cases fp with
    | none =>
      show List.foldl cleanupStep fs rest = _
      rw [ih fs h]
      refine List.filter_congr ?_
      intro a _
      simp
    | some p =>
      have hstep := cleanupStep_some_eq_filter fs p h
      rw [hstep, ih _ (h.filter _)]
      rw [List.filter_filter]
      refine List.filter_congr ?_
      intro a _
      by_cases hmem : some a ∈ rest
      · simp [hmem]
      · by_cases heq : a = p <;> simp [hmem, heq]

/-- `cleanupFiles` on a duplicate-free filesystem keeps exactly the paths not
listed for deletion. -/
lemma cleanupFiles_eq_filter (paths : List (Option Str)) (fs : List Str)
    (h : fs.Nodup) :
    cleanupFiles paths fs = fs.filter (fun f => decide (some f ∉ paths)) := by
  unfold cleanupFiles
  by_cases h0 : paths.length = 0
  · rw [if_pos h0]
    rw [List.length_eq_zero.mp h0]
    refine (List.filter_eq_self.mpr ?_).symm
    intro a _
    simp
  · rw [if_neg h0]
    exact cleanup_foldl_eq_filter paths fs h

/-- C9: on a duplicate-free filesystem, `cleanupFiles` attempts deletion of
every listed path (each ends up absent), touches nothing else, and — since the
per-path `fs.unlink` rejection is caught — never raises; a second run over the
same list (the files now already removed) changes nothing, so the call is
idempotent. -/
theorem cleanupFiles_removes_all_and_idempotent (paths : List (Option Str))
    (fs : List Str) (h : fs.Nodup) :
    (∀ p, some p ∈ paths → p ∉ cleanupFiles paths fs) ∧
    (∀ f ∈ fs, some f ∉ paths → f ∈ cleanupFiles paths fs) ∧
    cleanupFiles paths (cleanupFiles paths fs) = cleanupFiles paths fs := by
  have hchar := cleanupFiles_eq_filter paths fs h
  refine ⟨?_, ?_, ?_⟩
  · intro p hp hmem
    rw [hchar] at hmem
    rcases List.mem_filter.mp hmem with ⟨_, hdec⟩
    exact (decide_eq_true_eq.mp hdec) hp
  · intro f hf hnot
    rw [hchar]
    exact List.mem_filter.mpr ⟨hf, decide_eq_true_eq.mpr hnot⟩
  · rw [hchar, cleanupFiles_eq_filter paths _ (h.filter _), List.filter_filter]
    refine List.filter_congr ?_
    intro a _
    cases hd : decide (some a ∉ paths) <;> simp

/-- C9 witness: a concrete two-file filesystem with a null entry in the
deletion list; the second run leaves the state of the first run unchanged. -/
theorem cleanupFiles_removes_all_and_idempotent_witness :
    cleanupFiles [some (str "a"), none, some (str "b")]
        (cleanupFiles [some (str "a"), none, some (str "b")] [str "a", str "c"]) =
      cleanupFiles [some (str "a"), none, some (str "b")] [str "a", str "c"] :=
  (cleanupFiles_removes_all_and_idempotent
    [some (str "a"), none, some (str "b")] [str "a", str "c"] (by decide)).2.2

/-! ### Engine lemmas -/

/-- The error placeholder always starts with `"[Error"`. -/
lemma errorPlaceholder_marked (msg : Str) :
    (str "[Error").isPrefixOf (errorAnalysisPlaceholder msg) = true := by
  rw [List.isPrefixOf_iff_prefix, errorAnalysisPlaceholder, List.append_assoc]
  exact List.IsPrefix.trans (by decide) (List.prefix_append _ _)

/-- An analysis starting with either placeholder prefix is classified as
unsuccessful. -/
lemma not_successful_of_marked (pa : PartialAnalysis)
    (h : ((str "[Error").isPrefixOf pa.analysis ||
      (str "[Analysis for this segment was empty]").isPrefixOf pa.analysis) = true) :
    isSuccessfulAnalysis pa = false := by
  unfold isSuccessfulAnalysis
  rcases Bool.or_eq_true_iff.mp h with h1 | h1
  · rw [h1]
    rfl
  · rw [h1]
    exact Bool.and_false _

/-- A recorded error outcome is classified as unsuccessful. -/
lemma not_successful_error (c : Nat) (fr msg : Str) :
    isSuccessfulAnalysis ⟨c, fr, errorAnalysisPlaceholder msg⟩ = false := by
  unfold isSuccessfulAnalysis
  simp [errorPlaceholder_marked]

/-- When every chunk outcome is classified unsuccessful, the
`successfulAnalyses` filter is empty. -/
lemma successful_filter_nil (env : GroqEnv) (frames : List Str)
    (h : ∀ i < numChunksFor frames.length,
      isSuccessfulAnalysis (analyzeChunkOutcome env i
        (frameRangeLabel (i * VISION_MODEL_IMAGE_LIMIT)
          (i * VISION_MODEL_IMAGE_LIMIT + VISION_MODEL_IMAGE_LIMIT)
          frames.length)) = false) :
    (partialAnalysesFor env frames).filter isSuccessfulAnalysis = [] := by
  rw [List.filter_eq_nil_iff]
  intro pa hpa
  rw [partialAnalysesFor, List.mem_filterMap] at hpa
  obtain ⟨i, hi, heq⟩ := hpa
  rw [List.mem_range] at hi
  by_cases hch : (chunkOf frames i).length = 0
  · rw [if_pos hch] at heq
    cases heq
  · rw [if_neg hch] at heq
    have := Option.some.inj heq
    rw [← this, h i hi]
    simp

/-- When no analysis survives the filter, the video summarizer's result is the
transcript-only fallback's result. -/
lemma summarizeVideoContent_fst_of_no_success (t : Str) (frames : List Str)
    (env : GroqEnv) (ht : t ≠ [])
    (hfil : (partialAnalysesFor env frames).filter isSuccessfulAnalysis = []) :
    (summarizeVideoContent t frames env).1 = (summarizeAudioContent t env).1 := by
  simp only [summarizeVideoContent]
  rw [if_neg ht]
  by_cases hf : frames.length = 0
  · rw [if_pos hf]
  · rw [if_neg hf, hfil]
    simp

/-- C2: if every batch (chunk) call of `summarizeVideoContent` throws, the
function returns exactly the result of the transcript-only path
`summarizeAudioContent` on the same transcript, and in particular resolves
(rather than raising) whenever that fallback resolves. -/
theorem summarizeVideoContent_all_batches_error (t : Str) (frames : List Str)
    (env : GroqEnv) (ht : t ≠ [])
    (herr : ∀ i < numChunksFor frames.length,
      ∃ msg, env.visionResponse i = .error msg) :
    (summarizeVideoContent t frames env).1 = (summarizeAudioContent t env).1 ∧
    ∀ r, (summarizeAudioContent t env).1 = .ok r →
      (summarizeVideoContent t frames env).1 = .ok r := by
  have key : (summarizeVideoContent t frames env).1 =
      (summarizeAudioContent t env).1 := by
    refine summarizeVideoContent_fst_of_no_success t frames env ht
      (successful_filter_nil env frames ?_)
    intro i hi
    obtain ⟨msg, hmsg⟩ := herr i hi
    rw [analyzeChunkOutcome, hmsg]
    exact not_successful_error _ _ _
  exact ⟨key, fun r hr => key.trans hr⟩

/-- C2 witness: two frames (one chunk) whose vision call throws, with a
resolving text model: the video path resolves with the fallback's summary. -/
theorem summarizeVideoContent_all_batches_error_witness :
    (summarizeVideoContent (str "hello") [str "f1", str "f2"]
        ⟨fun _ => .error (str "429"), fun _ => .ok (str "S")⟩).1 =
      (summarizeAudioContent (str "hello")
        ⟨fun _ => .error (str "429"), fun _ => .ok (str "S")⟩).1 :=
  (summarizeVideoContent_all_batches_error (str "hello") [str "f1", str "f2"]
    ⟨fun _ => .error (str "429"), fun _ => .ok (str "S")⟩ (by decide)
    (fun i _ => ⟨str "429", rfl⟩)).1

/-- C7: with a non-empty transcript and an empty frame list,
`summarizeVideoContent` returns exactly the transcript-only result of
`summarizeAudioContent` — trace included — and its trace contains no vision
(batch) call at all. -/
theorem summarizeVideoContent_empty_frames_transcript_only (t : Str)
    (env : GroqEnv) (ht : t ≠ []) :
    summarizeVideoContent t [] env = summarizeAudioContent t env ∧
    ∀ c ∈ (summarizeVideoContent t [] env).2, c.isVisionCall = false := by
  have key : summarizeVideoContent t [] env = summarizeAudioContent t env := by
    simp only [summarizeVideoContent]
    rw [if_neg ht]
    rfl
  refine ⟨key, ?_⟩
  rw [key]
  simp only [summarizeAudioContent]
  by_cases h1 : t = [] ∨ (jsTrim t).length = 0
  · rw [if_pos h1]
    intro c hc
    cases hc
  · rw [if_neg h1]
    cases henv : env.textResponse (audioSummaryPrompt t) with
    | error msg =>
      intro c hc
      simp at hc
      subst hc
      rfl
    | ok content =>
      by_cases h2 : jsTrim content = []
      · intro c hc
        simp [h2] at hc
        subst hc
        rfl
      · intro c hc
        simp [h2] at hc
        subst hc
        rfl

/-- C7 witness: concrete transcript, no frames, resolving text model. -/
theorem summarizeVideoContent_empty_frames_transcript_only_witness :
    summarizeVideoContent (str "hello") []
        ⟨fun _ => .error (str "bad"), fun _ => .ok (str "S")⟩ =
      summarizeAudioContent (str "hello")
        ⟨fun _ => .error (str "bad"), fun _ => .ok (str "S")⟩ :=
  (summarizeVideoContent_empty_frames_transcript_only (str "hello")
    ⟨fun _ => .error (str "bad"), fun _ => .ok (str "S")⟩ (by decide)).1

/-- C10: batch outcomes are classified only by the recorded text's prefix: any
analysis beginning with `"[Error"` or with the empty-segment placeholder is
excluded from the successful set feeding the final synthesis, and when every
chunk's vision call resolves with non-empty text carrying such a prefix the
engine takes the transcript-only fallback even though every call succeeded. -/
theorem prefix_classified_success_falls_back
    (t : Str) (frames : List Str) (env : GroqEnv) (ht : t ≠ [])
    (hall : ∀ i < numChunksFor frames.length, ∃ content,
      env.visionResponse i = .ok content ∧ jsTrim content ≠ [] ∧
      ((str "[Error").isPrefixOf (jsTrim content) ||
        (str "[Analysis for this segment was empty]").isPrefixOf (jsTrim content)) = true) :
    (∀ pa : PartialAnalysis,
      ((str "[Error").isPrefixOf pa.analysis ||
        (str "[Analysis for this segment was empty]").isPrefixOf pa.analysis) = true →
      pa ∉ (partialAnalysesFor env frames).filter isSuccessfulAnalysis) ∧
    (summarizeVideoContent t frames env).1 = (summarizeAudioContent t env).1 := by
  constructor
  · intro pa hpa hmem
    rcases List.mem_filter.mp hmem with ⟨_, hsucc⟩
    rw [not_successful_of_marked pa hpa] at hsucc
    cases hsucc
  · refine summarizeVideoContent_fst_of_no_success t frames env ht
      (successful_filter_nil env frames ?_)
    intro i hi
    obtain ⟨content, hok, hne, hpre⟩ := hall i hi
    simp only [analyzeChunkOutcome, hok]
    rw [if_pos hne]
    exact not_successful_of_marked _ hpre

/-- C10 witness: a single frame whose vision call resolves with an
`"[Error"`-prefixed text; the engine still falls back to the audio path. -/
theorem prefix_classified_success_falls_back_witness :
    (summarizeVideoContent (str "t") [str "f"]
        ⟨fun _ => .ok (str "[Error during analysis: boom]"),
         fun _ => .ok (str "S")⟩).1 =
      (summarizeAudioContent (str "t")
        ⟨fun _ => .ok (str "[Error during analysis: boom]"),
         fun _ => .ok (str "S")⟩).1 :=
  (prefix_classified_success_falls_back (str "t") [str "f"]
    ⟨fun _ => .ok (str "[Error during analysis: boom]"),
     fun _ => .ok (str "S")⟩ (by decide)
    (fun i _ => ⟨str "[Error during analysis: boom]", rfl, by decide, by decide⟩)).2

/-! ### C6: one successful batch among three -/

/-- C6: with three chunks where only the second vision call succeeds (with
non-empty, non-placeholder text) and the other two throw, the successful set is
exactly the second chunk's record; the combined visual text is built from that
record alone, contains the successful text, and contains neither failed
chunk's placeholder; and the final synthesis request is issued with exactly
that combined text. -/
theorem single_success_included_failures_excluded
    (t : Str) (frames : List Str) (env : GroqEnv) (e1 g e2 : Str)
    (ht : t ≠ [])
    (hnc : numChunksFor frames.length = 3)
    (h0 : env.visionResponse 0 = .error e1)
    (h1 : env.visionResponse 1 = .ok g)
    (h2 : env.visionResponse 2 = .error e2)
    (hg : jsTrim g ≠ [])
    (hgE : (str "[Error").isPrefixOf (jsTrim g) = false)
    (hgA : (str "[Analysis for this segment was empty]").isPrefixOf (jsTrim g) = false) :
    (partialAnalysesFor env frames).filter isSuccessfulAnalysis =
      [⟨2, frameRangeLabel 5 10 frames.length, jsTrim g⟩] ∧
    combinedAnalysesText [⟨2, frameRangeLabel 5 10 frames.length, jsTrim g⟩] =
      str "\nAnalysis of " ++ frameRangeLabel 5 10 frames.length ++ str ":\n" ++
        jsTrim g ++ str "\n---" ∧
    jsTrim g <:+:
      combinedAnalysesText [⟨2, frameRangeLabel 5 10 frames.length, jsTrim g⟩] ∧
    errorAnalysisPlaceholder e1 ∉
      ([⟨2, frameRangeLabel 5 10 frames.length, jsTrim g⟩].map
        PartialAnalysis.analysis : List Str) ∧
    errorAnalysisPlaceholder e2 ∉
      ([⟨2, frameRangeLabel 5 10 frames.length, jsTrim g⟩].map
        PartialAnalysis.analysis : List Str) ∧
    (summarizeVideoContent t frames env).2 =
      visionCallsFor frames ++ [GroqCall.text (synthesisPromptText t
        (combinedAnalysesText [⟨2, frameRangeLabel 5 10 frames.length, jsTrim g⟩]))] := by
  have h11 : 11 ≤ frames.length ∧ frames.length ≤ 15 := by
    have h := hnc
    unfold numChunksFor VISION_MODEL_IMAGE_LIMIT at h
    omega
  have hchunk : ∀ i, i < 3 → (chunkOf frames i).length ≠ 0 := by
    intro i hi
    unfold chunkOf VISION_MODEL_IMAGE_LIMIT
    rw [List.length_take, List.length_drop]
    omega
  have hpa : partialAnalysesFor env frames =
      [⟨1, frameRangeLabel 0 5 frames.length, errorAnalysisPlaceholder e1⟩,
       ⟨2, frameRangeLabel 5 10 frames.length, jsTrim g⟩,
       ⟨3, frameRangeLabel 10 15 frames.length, errorAnalysisPlaceholder e2⟩] := by
    unfold partialAnalysesFor
    rw [hnc, show List.range 3 = [0, 1, 2] from rfl]
    simp only [List.filterMap_cons, List.filterMap_nil]
    rw [if_neg (hchunk 0 (by norm_num)), if_neg (hchunk 1 (by norm_num)),
      if_neg (hchunk 2 (by norm_num))]
    simp only [analyzeChunkOutcome, h0, h1, h2]
    rw [if_pos hg]
    norm_num [VISION_MODEL_IMAGE_LIMIT]
  have hgood : isSuccessfulAnalysis
      ⟨2, frameRangeLabel 5 10 frames.length, jsTrim g⟩ = true := by
    unfold isSuccessfulAnalysis
    simp only [hgE, hgA]
    rfl
  have hfil : (partialAnalysesFor env frames).filter isSuccessfulAnalysis =
      [⟨2, frameRangeLabel 5 10 frames.length, jsTrim g⟩] := by
    rw [hpa]
    simp [List.filter_cons, not_successful_error, hgood]
  have hne_ph1 : errorAnalysisPlaceholder e1 ≠ jsTrim g := by
    intro hcontra
    rw [← hcontra, errorPlaceholder_marked] at hgE
    cases hgE
  have hne_ph2 : errorAnalysisPlaceholder e2 ≠ jsTrim g := by
    intro hcontra
    rw [← hcontra, errorPlaceholder_marked] at hgE
    cases hgE
  refine ⟨hfil, by simp [combinedAnalysesText], ?_, ?_, ?_, ?_⟩
  · exact ⟨str "\nAnalysis of " ++ frameRangeLabel 5 10 frames.length ++ str ":\n",
      str "\n---", by simp [combinedAnalysesText]⟩
  · simp only [List.map_cons, List.map_nil, List.mem_singleton]
    exact hne_ph1
  · simp only [List.map_cons, List.map_nil, List.mem_singleton]
    exact hne_ph2
  · simp only [summarizeVideoContent]
    rw [if_neg ht, if_neg (by omega : ¬frames.length = 0), hfil]
    rw [if_neg (by simp)]
    cases henv : env.textResponse (synthesisPromptText t
        (combinedAnalysesText [⟨2, frameRangeLabel 5 10 frames.length, jsTrim g⟩])) with
    | error msg => rfl
    | ok content =>
      by_cases hfs : jsTrim content = [] <;> simp [hfs]

/-- C6 witness: a concrete 11-frame run with the middle chunk succeeding. -/
theorem single_success_included_failures_excluded_witness :
    (partialAnalysesFor
        ⟨fun i => if i = 1 then .ok (str "a terminal showing npm install") else .error (str "boom"),
         fun _ => .ok (str "S")⟩
        (List.replicate 11 (str "f"))).filter isSuccessfulAnalysis =
      [⟨2, frameRangeLabel 5 10 (List.replicate 11 (str "f")).length,
        jsTrim (str "a terminal showing npm install")⟩] :=
  (single_success_included_failures_excluded (str "t") (List.replicate 11 (str "f"))
    ⟨fun i => if i = 1 then .ok (str "a terminal showing npm install") else .error (str "boom"),
     fun _ => .ok (str "S")⟩
    (str "boom") (str "a terminal showing npm install") (str "boom")
    (by decide) (by decide) rfl rfl rfl (by decide) (by decide) (by decide)).1

/-! ### Orchestrator theorems -/

/-- C3: in the video path, if audio extraction throws, the run fails with the
critical extraction error; if audio extraction succeeds but frame extraction
throws, the whole run behaves exactly as a run whose frame extraction resolved
with an empty frame set — it does not fail at that point. -/
theorem route_video_extraction_failure_handling (mt p : Str) (env : RouteEnv)
    (hmt : (str "video/").isPrefixOf mt = true) :
    (∀ msg, env.extractAudioResult = .error msg →
      summarizeRoute mt p env =
        (.serverError (str "Critical video processing error: " ++ msg), [])) ∧
    (∀ audioPath fmsg, env.extractAudioResult = .ok audioPath →
      env.extractFramesResult = .error fmsg →
      summarizeRoute mt p env =
        summarizeRoute mt p { env with extractFramesResult := .ok [] }) := by
  constructor
  · intro msg hmsg
    simp only [summarizeRoute]
    rw [if_pos hmt, hmsg]
  · intro audioPath fmsg hok hf
    simp only [summarizeRoute, hok, hf, if_pos hmt]
    rfl

/-- C3 witness: concrete environments for both conjuncts; here the
audio-extraction-failure branch. -/
theorem route_video_extraction_failure_handling_witness :
    summarizeRoute (str "video/mp4") (str "u")
        ⟨.error (str "boom"), .ok [], fun _ => .ok (str "text"),
          ⟨fun _ => .ok (str "v"), fun _ => .ok (str "s")⟩⟩ =
      (.serverError (str "Critical video processing error: " ++ str "boom"), []) :=
  (route_video_extraction_failure_handling (str "video/mp4") (str "u")
    ⟨.error (str "boom"), .ok [], fun _ => .ok (str "text"),
      ⟨fun _ => .ok (str "v"), fun _ => .ok (str "s")⟩⟩ (by decide)).1
    (str "boom") rfl

/-- C4: the synthesis engine fails fast on an absent (empty) transcript with
its transcript-required error, for every frame list and environment; and the
orchestrator turns a whitespace-only transcript into the fatal
`Transcription resulted in empty text.` failure with an empty Groq-call trace,
i.e. before any synthesis call is issued. -/
theorem empty_transcript_fatal (frames : List Str) (env : GroqEnv)
    (mt p t : Str) (renv : RouteEnv)
    (hmtv : (str "video/").isPrefixOf mt = false)
    (hmta : (str "audio/").isPrefixOf mt = true)
    (htr : renv.transcribeResult p = .ok t)
    (hws : (jsTrim t).length = 0) :
    (summarizeVideoContent [] frames env).1 =
      .error (str "Transcript is required for video summarization.") ∧
    summarizeRoute mt p renv =
      (.serverError (str "Transcription resulted in empty text."), []) := by
  constructor
  · simp [summarizeVideoContent]
  · simp only [summarizeRoute]
    rw [if_neg (by simp [hmtv]), if_pos hmta]
    simp only [transcribeAndSummarize]
    rw [htr]
    show (if t = [] ∨ (jsTrim t).length = 0 then _ else _) = _
    rw [if_pos (Or.inr hws)]

/-- C4 witness: an audio upload whose transcription resolves with a
whitespace-only transcript. -/
theorem empty_transcript_fatal_witness :
    summarizeRoute (str "audio/mpeg") (str "u")
        ⟨.ok (str "a"), .ok [], fun _ => .ok (str "   "),
          ⟨fun _ => .ok (str "v"), fun _ => .ok (str "s")⟩⟩ =
      (.serverError (str "Transcription resulted in empty text."), []) :=
  (empty_transcript_fatal [] ⟨fun _ => .ok (str "v"), fun _ => .ok (str "s")⟩
    (str "audio/mpeg") (str "u") (str "   ")
    ⟨.ok (str "a"), .ok [], fun _ => .ok (str "   "),
      ⟨fun _ => .ok (str "v"), fun _ => .ok (str "s")⟩⟩
    (by decide) (by decide) rfl (by decide)).2

end Hackhazards
